import Mathlib

/-!
# AuraSense-SFSVC — verification of the sensing/control core

Shallow embedding of the AuraSense real-time inspection pipeline
(`src/rt_core.cpp`, `src/engine.cpp`, `src/lockfree_queue.h`,
`src/gating_engine.cpp`, `src/signature_bank.hpp`,
`src/aurasense_yolo_bond.h`) and proofs about it.

Modelling conventions:
* C `float`/`double` arithmetic is modelled with exact rationals (`ℚ`)
  where the code uses only field operations and comparisons, and with
  `ℝ` where the code calls transcendental functions (`exp`, `sqrt`).
* Machine integers are modelled with `ℕ`/`ℤ`; the 64-bit queue counters
  never wrap within a run (per the design notes) and are modelled as `ℕ`.
* Byte buffers and image planes are modelled as functions `ℕ → ℕ`
  (flat index to byte value).
* Wall-clock readings (`get_time_seconds`, latency measurements) are
  inputs of the model, threaded explicitly.
-/

namespace AuraSense

/-! ## Configuration constants, `src/rt_core.cpp` lines 41-63 -/

def TARGET_WIDTH : ℕ := 416
def TARGET_HEIGHT : ℕ := 234
def TOTAL_PIXELS : ℕ := TARGET_HEIGHT * TARGET_WIDTH
def THRESHOLD_ON_U8 : ℤ := 8
def THRESHOLD_OFF_U8 : ℤ := 8
def CRACK_ROI_START_Y : ℕ := (TARGET_HEIGHT * 2) / 3
def CRACK_GRADIENT_THRESHOLD_U8 : ℕ := 77
def YOLO_MAX_AGE_S : ℚ := 5
def LATERAL_INHIBITION_RADIUS : ℕ := 3

/-- `std::clamp(v, lo, hi)`: `v < lo → lo`, `hi < v → hi`, else `v`. -/
def c_clamp {α : Type} [LinearOrder α] (v lo hi : α) : α :=
  if v < lo then lo else if hi < v then hi else v

/-- `static_cast<int>` of a floating value truncates toward zero. -/
def c_trunc (q : ℚ) : ℤ :=
  if 0 ≤ q then ⌊q⌋ else ⌈q⌉

/-! ## Throttle LUT, `src/rt_core.cpp` lines 130-153

`init_throttle_lut` fills `g_throttle_lut[i]` from `crack_norm = i/255`;
we model the filled table as the generating function. -/

def g_throttle_lut (i : ℕ) : ℚ :=
  let crack_norm : ℚ := (i : ℚ) / 255
  if crack_norm > 1/2 then 3/10
  else if crack_norm > 1/5 then 7/10
  else 1

def throttle_from_crack_lut (crack_score : ℚ) : ℚ :=
  let idx : ℤ := c_trunc (crack_score * 255)
  let idx : ℤ := c_clamp idx 0 255
  g_throttle_lut idx.toNat

/-- Modelled from the spec (§4.3.1 (e)): the plain threshold map
`fused_crack → throttle` that the claim says the 256-entry lookup
realises exactly; compared against `throttle_from_crack_lut`. -/
def spec_throttle_map (fused_crack : ℚ) : ℚ :=
  if fused_crack > 1/2 then 3/10
  else if fused_crack > 1/5 then 7/10
  else 1

/-! ## Lock-free YOLO snapshot and fusion, `src/rt_core.cpp` lines 69-94, 458-490 -/

structure YoloSnapshot where
  timestamp_s : ℚ
  front_risk : ℚ
  left_risk : ℚ
  right_risk : ℚ
  crack_risk : ℚ
  min_distance_m : ℚ
  max_confidence : ℚ
  num_detections : ℤ
  priority_detections : ℤ
  num_filtered_out : ℤ
  valid : Bool
deriving DecidableEq

/-- `apply_yolo_fusion_lockfree`, `src/rt_core.cpp` lines 467-490.
The snapshot read (`read_yolo_snapshot`) is modelled by passing the
currently published snapshot as an argument. -/
def apply_yolo_fusion_lockfree (snap : YoloSnapshot) (raw_crack_score : ℚ)
    (current_time_s : ℚ) : ℚ :=
  if !snap.valid then raw_crack_score
  else
    let age := current_time_s - snap.timestamp_s
    if age > YOLO_MAX_AGE_S then raw_crack_score
    else
      let boost : ℚ := 1 + snap.crack_risk * (1/2)
      let obstacle_risk := max snap.front_risk (max snap.left_risk snap.right_risk)
      let boost := if obstacle_risk > 3/5 then boost * (7/10) else boost
      min 1 (raw_crack_score * boost)

/-! ## Bonding-layer crack fusion, `src/aurasense_yolo_bond.h` lines 26-49, 218-234

This is the formula the spec (§4.3.1 (d)) states for semantic fusion. -/

structure AccuracyConfig where
  min_confidence_crack : ℚ
  min_confidence_obstacle : ℚ
  min_confidence_priority : ℚ
  min_consecutive_frames : ℤ
  max_gap_frames : ℤ
  min_bbox_area_ratio : ℚ
  max_bbox_area_ratio : ℚ
  max_yolo_age_ms : ℚ
  stale_decay_start_ms : ℚ
  max_crack_amplification : ℚ
  max_speed_reduction : ℚ
  max_steer_bias : ℚ
  min_safe_speed_scale : ℚ

def defaultAccuracyConfig : AccuracyConfig :=
  { min_confidence_crack := 35/100
    min_confidence_obstacle := 45/100
    min_confidence_priority := 55/100
    min_consecutive_frames := 2
    max_gap_frames := 3
    min_bbox_area_ratio := 1/1000
    max_bbox_area_ratio := 4/5
    max_yolo_age_ms := 200
    stale_decay_start_ms := 100
    max_crack_amplification := 5/2
    max_speed_reduction := 7/10
    max_steer_bias := 3/10
    min_safe_speed_scale := 15/100 }

/-- `fuse_crack`, `src/aurasense_yolo_bond.h` lines 218-234. -/
def fuse_crack (sfsvc_crack_score yolo_crack_risk yolo_front_risk : ℚ)
    (cfg : AccuracyConfig) : ℚ :=
  let semantic_risk := max yolo_crack_risk yolo_front_risk
  if semantic_risk > 3/10 ∧ sfsvc_crack_score > 1/20 then
    let factor := 1 + (cfg.max_crack_amplification - 1) * semantic_risk
    min 1 (sfsvc_crack_score * factor)
  else if semantic_risk < 1/10 ∧ sfsvc_crack_score < 1/10 then
    sfsvc_crack_score * (1/2)
  else
    sfsvc_crack_score

/-! ## Grayscale conversion, `src/rt_core.cpp` lines 272-292

A BGR buffer is a function from byte index to byte value
(`bgr[i*3+0] = B`, `bgr[i*3+1] = G`, `bgr[i*3+2] = R`). -/

def bgr_to_gray_u8 (bgr : ℕ → ℕ) : ℕ → ℕ :=
  fun i =>
    let b := bgr (i * 3 + 0)
    let g := bgr (i * 3 + 1)
    let r := bgr (i * 3 + 2)
    (54 * r + 183 * g + 19 * b) / 256

/-! ## Lateral inhibition, `src/rt_core.cpp` lines 298-332 -/

/-- `inhibited_causal`, `src/rt_core.cpp` lines 298-332.  Rows of flags
are functions `ℕ → Bool`; the rolling history is `slot ↦ row`. -/
def inhibited_causal (curr_row : ℕ → Bool) (history_rows : ℕ → ℕ → Bool)
    (width x radius rows_valid rows_processed : ℕ) : Bool :=
  if radius = 0 then false
  else
    let x0 := x - radius
    ((List.range (x - x0)).any fun i => curr_row (x0 + i)) ||
    ((List.range rows_valid).any fun j =>
      let k := j + 1
      let slot := (rows_processed - k) % radius
      let x1 := if width ≤ x + radius then width - 1 else x + radius
      (List.range (x1 + 1 - x0)).any fun i => history_rows slot (x0 + i))

/-! ## Single-pass pipeline, `src/rt_core.cpp` lines 338-452 -/

structure PipelineResult where
  on_count : ℕ
  off_count : ℕ
  crack_score : ℚ
deriving DecidableEq

/-- Loop state of `single_pass_pipeline`: the running counters together
with the per-frame lateral-inhibition buffers. -/
structure PipeState where
  on_count : ℕ
  off_count : ℕ
  crack_accumulator : ℚ
  crack_pixels : ℕ
  on_history : ℕ → ℕ → Bool
  off_history : ℕ → ℕ → Bool
  on_curr : ℕ → Bool
  off_curr : ℕ → Bool
  rows_processed : ℕ

/-- One iteration of the inner `x` loop of `single_pass_pipeline`
(`src/rt_core.cpp` lines 379-431): temporal delta, inhibited spike
counting and crack-evidence accumulation in the bottom-third ROI. -/
def pixel_step (curr_gray prev_gray : ℕ → ℕ) (width y : ℕ)
    (st : PipeState) (x : ℕ) : PipeState :=
  let idx := y * width + x
  let delta : ℤ := (curr_gray idx : ℤ) - (prev_gray idx : ℤ)
  let rows_valid := min st.rows_processed LATERAL_INHIBITION_RADIUS
  let st :=
    if delta > THRESHOLD_ON_U8 then
      if inhibited_causal st.on_curr st.on_history width x
          LATERAL_INHIBITION_RADIUS rows_valid st.rows_processed then st
      else { st with
        on_count := st.on_count + 1
        on_curr := fun i => if i = x then true else st.on_curr i }
    else if delta < -THRESHOLD_OFF_U8 then
      if inhibited_causal st.off_curr st.off_history width x
          LATERAL_INHIBITION_RADIUS rows_valid st.rows_processed then st
      else { st with
        off_count := st.off_count + 1
        off_curr := fun i => if i = x then true else st.off_curr i }
    else st
  if CRACK_ROI_START_Y ≤ y then
    let left : ℤ := curr_gray (idx - 1)
    let right : ℤ := curr_gray (idx + 1)
    let grad_abs : ℕ := (right - left).natAbs
    if grad_abs > CRACK_GRADIENT_THRESHOLD_U8 then
      { st with
        crack_accumulator := st.crack_accumulator + (grad_abs : ℚ) / 255
        crack_pixels := st.crack_pixels + 1 }
    else st
  else st

/-- One iteration of the outer `y` loop (`src/rt_core.cpp` lines 369-442):
reset the per-row buffers, walk the interior columns, then store the
current row into the rolling history. -/
def row_step (curr_gray prev_gray : ℕ → ℕ) (width : ℕ)
    (st : PipeState) (y : ℕ) : PipeState :=
  let st := { st with on_curr := fun _ => false, off_curr := fun _ => false }
  let st := ((List.range (width - 2)).map (· + 1)).foldl
    (pixel_step curr_gray prev_gray width y) st
  let slot := st.rows_processed % LATERAL_INHIBITION_RADIUS
  { st with
    on_history := fun s i => if s = slot then st.on_curr i else st.on_history s i
    off_history := fun s i => if s = slot then st.off_curr i else st.off_history s i
    rows_processed := st.rows_processed + 1 }

def initPipeState : PipeState :=
  { on_count := 0, off_count := 0, crack_accumulator := 0, crack_pixels := 0
    on_history := fun _ _ => false, off_history := fun _ _ => false
    on_curr := fun _ => false, off_curr := fun _ => false
    rows_processed := 0 }

/-- `single_pass_pipeline`, `src/rt_core.cpp` lines 344-452. -/
def single_pass_pipeline (curr_gray prev_gray : ℕ → ℕ)
    (width height : ℕ) : PipelineResult :=
  let st := ((List.range (height - 2)).map (· + 1)).foldl
    (row_step curr_gray prev_gray width) initPipeState
  let roi_pixels := (height - CRACK_ROI_START_Y) * (width - 2)
  { on_count := st.on_count
    off_count := st.off_count
    crack_score :=
      if 0 < roi_pixels then st.crack_accumulator / (roi_pixels : ℚ) else 0 }

/-! ## `ControlOutput` (`src/rt_core.h` lines 12-43) and the hot path -/

structure ControlOutput where
  frame_id : ℤ
  crack_score : ℚ
  fused_crack_score : ℚ
  sparsity : ℚ
  throttle : ℚ
  steer : ℚ
  is_null_cycle : ℤ
  inference_suppressed : ℤ
  event_only_mode : ℤ
  reference_frame_age : ℤ
  yolo_active : ℤ
  yolo_age_ms : ℚ
  encode_time_ms : ℚ
  on_spike_count : ℕ
  off_spike_count : ℕ
  yolo_target_hz : ℚ
  global_saliency : ℚ
  roi_count : ℤ

/-- The all-zero `ControlOutput` produced by `std::memset(&output, 0, ...)`
at `src/rt_core.cpp` line 572. -/
def zeroControlOutput : ControlOutput :=
  { frame_id := 0, crack_score := 0, fused_crack_score := 0, sparsity := 0
    throttle := 0, steer := 0, is_null_cycle := 0, inference_suppressed := 0
    event_only_mode := 0, reference_frame_age := 0, yolo_active := 0
    yolo_age_ms := 0, encode_time_ms := 0, on_spike_count := 0
    off_spike_count := 0, yolo_target_hz := 0, global_saliency := 0
    roi_count := 0 }

/-- Mutable kernel state of `rt_core.cpp`: the two luminance planes and
the frame counter (`g_prev_gray_u8`, `g_curr_gray_u8`, `g_frame_count`).
The latency-metrics tracker records wall-clock readings only and is not
part of the model. -/
structure RTState where
  prev_gray : ℕ → ℕ
  curr_gray : ℕ → ℕ
  frame_count : ℕ

def initRTState : RTState :=
  { prev_gray := fun _ => 0, curr_gray := fun _ => 0, frame_count := 0 }

/-- Ambient inputs read by one `rt_core_process_frame_ptr` call: the
currently published YOLO snapshot, the wall clock, the adaptive target
rate and the measured latency of this very call. -/
structure RTEnv where
  yolo : YoloSnapshot
  now : ℚ
  target_hz : ℚ
  latency_ms : ℚ

/-- `make_control_decision`, `src/rt_core.cpp` lines 515-518. -/
def make_control_decision (fused_crack : ℚ) : ℚ × ℚ :=
  (throttle_from_crack_lut fused_crack, 0)

/-- `rt_core_process_frame_ptr`, `src/rt_core.cpp` lines 562-687.
`bgr = none` models a null buffer pointer. -/
def rt_core_process_frame_ptr (s : RTState) (env : RTEnv)
    (bgr : Option (ℕ → ℕ)) (height width : ℕ) : ControlOutput × RTState :=
  match bgr with
  | none => ({ zeroControlOutput with frame_id := -1 }, s)
  | some buf =>
    if height ≠ TARGET_HEIGHT ∨ width ≠ TARGET_WIDTH then
      ({ zeroControlOutput with frame_id := -1 }, s)
    else
      let curr := bgr_to_gray_u8 buf
      let pipeline : PipelineResult :=
        if 0 < s.frame_count then
          single_pass_pipeline curr s.prev_gray TARGET_WIDTH TARGET_HEIGHT
        else
          { on_count := 0, off_count := 0, crack_score := 0 }
      let total_spikes : ℚ := ((pipeline.on_count + pipeline.off_count : ℕ) : ℚ)
      let sparsity : ℚ := 1 - total_spikes / (TOTAL_PIXELS : ℚ)
      let fused := apply_yolo_fusion_lockfree env.yolo pipeline.crack_score env.now
      let (throttle, steer) := make_control_decision fused
      let output : ControlOutput :=
        { frame_id := (s.frame_count : ℤ)
          crack_score := pipeline.crack_score
          fused_crack_score := fused
          sparsity := sparsity
          throttle := throttle
          steer := steer
          is_null_cycle := if s.frame_count = 0 then 1 else 0
          inference_suppressed := if sparsity > 19/20 then 1 else 0
          event_only_mode := if sparsity > 49/50 then 1 else 0
          reference_frame_age := 1
          yolo_active := if env.yolo.valid then 1 else 0
          yolo_age_ms :=
            if env.yolo.valid then (env.now - env.yolo.timestamp_s) * 1000
            else 99999
          encode_time_ms := env.latency_ms
          on_spike_count := pipeline.on_count
          off_spike_count := pipeline.off_count
          yolo_target_hz := env.target_hz
          global_saliency := 0
          roi_count := 0 }
      (output,
        { prev_gray := curr, curr_gray := s.prev_gray
          frame_count := s.frame_count + 1 })

/-! ## `MultiRateEngine::make_decision`, `src/engine.cpp` lines 657-692

Fields filled from the external `CrackStats` component
(`crack_width_mm`, `crack_severity`, …) are out of the core model;
`semantic_age_ms` is an ambient input. -/

structure ControlDecision where
  frame_id : ℤ
  timestamp : ℚ
  throttle : ℚ
  steer : ℚ
  action : String
  crack_score : ℚ
  sparsity : ℚ
  confidence : ℚ
  semantic_age_ms : ℚ
  is_null_cycle : Bool
  inference_suppressed : Bool
  event_only_mode : Bool
  yolo_active : Bool
  yolo_age_ms : ℚ
  reference_frame_age : ℤ
  encode_time_ms : ℚ

def MultiRateEngine.make_decision (output : ControlOutput) (sig_conf : ℚ)
    (timestamp : ℚ) (semantic_age : ℚ) : ControlDecision :=
  let crack := output.fused_crack_score
  { frame_id := output.frame_id
    timestamp := timestamp
    throttle := output.throttle
    steer := output.steer
    action :=
      if crack > 7/10 then "STOP"
      else if crack > 2/5 then "SLOW"
      else if crack > 1/10 then "CAUTION"
      else "CLEAR"
    crack_score := output.fused_crack_score
    sparsity := output.sparsity
    confidence := sig_conf
    semantic_age_ms := semantic_age
    is_null_cycle := output.is_null_cycle ≠ 0
    inference_suppressed := output.inference_suppressed ≠ 0
    event_only_mode := output.event_only_mode ≠ 0
    yolo_active := output.yolo_active ≠ 0
    yolo_age_ms := output.yolo_age_ms
    reference_frame_age := output.reference_frame_age
    encode_time_ms := output.encode_time_ms }

/-! ## Lane 1 enqueue order, `src/engine.cpp` lines 254-332

Within one `lane1_control` loop iteration (one `frame_id`), the fan-out
pushes happen in program order: signature job (line 264), YOLO job if
gated (line 278), visualization job (line 294), CONTROL callback job to
the L6 queue (line 308), UplinkPayload to the L4 queue (line 331). -/

inductive Lane1Event where
  | sig_push
  | yolo_push
  | vis_push
  | control_push
  | uplink_push
deriving DecidableEq

def lane1_enqueue_order (should_run_yolo : Bool) : List Lane1Event :=
  [Lane1Event.sig_push] ++
  (if should_run_yolo then [Lane1Event.yolo_push] else []) ++
  [Lane1Event.vis_push, Lane1Event.control_push, Lane1Event.uplink_push]

/-! ## SPSC ring, `src/lockfree_queue.h`

Sequential (single-thread) semantics of `LockFreeQueue<T, N>`; the
counters are 64-bit and never wrap within a run, modelled as `ℕ`.
`buffer` maps a slot index (`tail & MASK`, i.e. `tail % N` for a power
of two) to its live element. -/

structure LFQueue (α : Type) (N : ℕ) where
  tail : ℕ
  cached_head : ℕ
  head : ℕ
  cached_tail : ℕ
  push_count : ℕ
  pop_count : ℕ
  drop_count : ℕ
  buffer : ℕ → Option α

def LFQueue.empty (α : Type) (N : ℕ) : LFQueue α N :=
  { tail := 0, cached_head := 0, head := 0, cached_tail := 0
    push_count := 0, pop_count := 0, drop_count := 0
    buffer := fun _ => none }

/-- `LockFreeQueue::push_impl`, `src/lockfree_queue.h` lines 288-312
(also the body of `try_push`). -/
def LFQueue.push_impl {α : Type} {N : ℕ} (q : LFQueue α N) (item : α) :
    Bool × LFQueue α N :=
  let tail := q.tail
  if N ≤ tail - q.cached_head then
    let refreshed := q.head
    if N ≤ tail - refreshed then
      (false, { q with cached_head := refreshed
                       drop_count := q.drop_count + 1 })
    else
      (true, { q with cached_head := refreshed
                      buffer := fun i => if i = tail % N then some item else q.buffer i
                      tail := tail + 1
                      push_count := q.push_count + 1 })
  else
    (true, { q with buffer := fun i => if i = tail % N then some item else q.buffer i
                    tail := tail + 1
                    push_count := q.push_count + 1 })

/-- `LockFreeQueue::try_pop`, `src/lockfree_queue.h` lines 195-207. -/
def LFQueue.try_pop {α : Type} {N : ℕ} (q : LFQueue α N) :
    Option α × LFQueue α N :=
  let head := q.head
  if head = q.cached_tail then
    let refreshed := q.tail
    if head = refreshed then (none, { q with cached_tail := refreshed })
    else
      (q.buffer (head % N),
        { q with cached_tail := refreshed
                 buffer := fun i => if i = head % N then none else q.buffer i
                 head := head + 1
                 pop_count := q.pop_count + 1 })
  else
    (q.buffer (head % N),
      { q with buffer := fun i => if i = head % N then none else q.buffer i
               head := head + 1
               pop_count := q.pop_count + 1 })

/-- A producer-only burst: `try_push` each element of `vs` in order. -/
def LFQueue.push_burst {α : Type} {N : ℕ} (q : LFQueue α N) (vs : List α) :
    List Bool × LFQueue α N :=
  match vs with
  | [] => ([], q)
  | v :: rest =>
    let r := q.push_impl v
    let r2 := r.2.push_burst rest
    (r.1 :: r2.1, r2.2)

/-! ## Gating engine, `src/gating_engine.cpp` -/

/-- `SignatureMatch`, `src/types.h` lines 128-133. -/
structure SignatureMatch where
  matched : Bool
  confidence : ℚ
  id : ℤ
  crack_score : ℚ
deriving DecidableEq

inductive GatingReason where
  | ForcedInfer
  | CriticalCrack
  | MaxSkipFrames
  | MaxSkipTime
  | NovelScene
  | LowConfidence
  | HighConfidenceSkip
deriving DecidableEq

/-- The atomically readable configuration of `GatingEngine`. -/
structure GatingConfig where
  confidence_threshold : ℚ
  max_skip_frames : ℤ
  max_skip_time_ms : ℚ
  critical_crack_threshold : ℚ
deriving DecidableEq

/-- Single-writer runtime state plus the relaxed-atomic counters of
`GatingEngine` (`src/gating_engine.hpp` lines 111-123). -/
structure GatingState where
  frames_since_last_infer : ℤ
  last_infer_time_ms : ℚ
  current_skip_streak : ℤ
  max_skip_streak : ℤ
  total_decisions : ℕ
  infer_count : ℕ
  skip_count : ℕ
deriving DecidableEq

/-- State after construction (`src/gating_engine.cpp` lines 8-23) and
after `reset` (lines 225-236). -/
def GatingState.fresh : GatingState :=
  { frames_since_last_infer := 0, last_infer_time_ms := 0
    current_skip_streak := 0, max_skip_streak := 0
    total_decisions := 0, infer_count := 0, skip_count := 0 }

structure GatingDecision where
  should_infer : Bool
  confidence : ℚ
  reason : GatingReason
  signature_matched : Bool
  signature_confidence : ℚ
  frames_since_last_infer : ℤ
  time_since_last_infer_ms : ℚ
deriving DecidableEq

/-- `GatingEngine::make_decision`, `src/gating_engine.cpp` lines 146-191. -/
def GatingEngine.make_decision (st : GatingState) (should_infer : Bool)
    (confidence : ℚ) (reason : GatingReason) (sig_match : SignatureMatch)
    (time_since_last_ms current_time_ms : ℚ) :
    GatingDecision × GatingState :=
  let decision : GatingDecision :=
    { should_infer := should_infer
      confidence := confidence
      reason := reason
      signature_matched := sig_match.matched
      signature_confidence := sig_match.confidence
      frames_since_last_infer := st.frames_since_last_infer
      time_since_last_infer_ms := time_since_last_ms }
  let st := { st with total_decisions := st.total_decisions + 1 }
  let st :=
    if should_infer then
      { st with frames_since_last_infer := 0
                last_infer_time_ms := current_time_ms
                current_skip_streak := 0
                infer_count := st.infer_count + 1 }
    else
      let streak := st.current_skip_streak + 1
      { st with current_skip_streak := streak
                max_skip_streak := max st.max_skip_streak streak
                skip_count := st.skip_count + 1 }
  (decision, st)

/-- `GatingEngine::decide`, `src/gating_engine.cpp` lines 29-140. -/
def GatingEngine.decide (cfg : GatingConfig) (st : GatingState)
    (sig_match : SignatureMatch) (current_time_ms crack_score : ℚ)
    (force_infer : Bool) : GatingDecision × GatingState :=
  let time_since_last_ms :=
    if st.last_infer_time_ms > 0 then current_time_ms - st.last_infer_time_ms
    else cfg.max_skip_time_ms + 1
  let st := { st with frames_since_last_infer := st.frames_since_last_infer + 1 }
  if force_infer then
    GatingEngine.make_decision st true 1 GatingReason.ForcedInfer sig_match
      time_since_last_ms current_time_ms
  else if crack_score ≥ cfg.critical_crack_threshold then
    GatingEngine.make_decision st true 1 GatingReason.CriticalCrack sig_match
      time_since_last_ms current_time_ms
  else if st.frames_since_last_infer ≥ cfg.max_skip_frames then
    GatingEngine.make_decision st true (1/2) GatingReason.MaxSkipFrames sig_match
      time_since_last_ms current_time_ms
  else if time_since_last_ms ≥ cfg.max_skip_time_ms then
    GatingEngine.make_decision st true (1/2) GatingReason.MaxSkipTime sig_match
      time_since_last_ms current_time_ms
  else if !sig_match.matched then
    GatingEngine.make_decision st true (3/10) GatingReason.NovelScene sig_match
      time_since_last_ms current_time_ms
  else if sig_match.confidence < cfg.confidence_threshold then
    GatingEngine.make_decision st true sig_match.confidence
      GatingReason.LowConfidence sig_match time_since_last_ms current_time_ms
  else
    GatingEngine.make_decision st false sig_match.confidence
      GatingReason.HighConfidenceSkip sig_match time_since_last_ms current_time_ms

/-- The priority cascade as an explicit first-match over the seven
conditions, in the contractual order (spec §4.4); `frames_after` is the
frame counter after the increment at the top of `decide`. -/
def gating_first_reason (force_infer : Bool) (crack_score crit : ℚ)
    (frames_after max_frames : ℤ) (time_since max_time : ℚ)
    (matched : Bool) (confidence conf_thresh : ℚ) : GatingReason :=
  if force_infer then GatingReason.ForcedInfer
  else if crack_score ≥ crit then GatingReason.CriticalCrack
  else if frames_after ≥ max_frames then GatingReason.MaxSkipFrames
  else if time_since ≥ max_time then GatingReason.MaxSkipTime
  else if !matched then GatingReason.NovelScene
  else if confidence < conf_thresh then GatingReason.LowConfidence
  else GatingReason.HighConfidenceSkip

/-! ## Signature bank, `src/signature_bank.hpp`

This subsystem calls `std::exp` and `std::sqrt`, so it is modelled over
`ℝ` (with classical decidability for the comparisons); everything else
mirrors the source line by line. -/

open Classical in
/-- `sb_l2_distance`, `src/signature_bank.hpp` lines 26-36: Euclidean
distance over the first `min (length a) (length b)` coordinates. -/
noncomputable def sb_l2_distance (a b : List ℝ) : ℝ :=
  Real.sqrt (((a.zip b).map fun p => (p.1 - p.2) * (p.1 - p.2)).sum)

open Classical in
/-- `sb_safe_unit_norm`, `src/signature_bank.hpp` lines 41-53
(`eps = 1e-8`). -/
noncomputable def sb_safe_unit_norm (v : List ℝ) : List ℝ :=
  let n := Real.sqrt ((v.map fun x => x * x).sum)
  if n < 1/100000000 then v.map fun _ => 0
  else v.map fun x => x * (1 / n)

/-- `MatchResult`, `src/signature_bank.hpp` lines 58-67.  The C++
defaults are `distance = +inf` (a float sentinel never read while
`matched = false`; modelled as `0`) and `match_time_ms` a wall-clock
reading (modelled as `0`). -/
structure MatchResult where
  matched : Bool
  signature_id : ℤ
  distance : ℝ
  confidence : ℝ
  match_time_ms : ℝ
  d_struct : ℝ
  avg_luminance : ℝ

def MatchResult.init (avg_luminance : ℝ) : MatchResult :=
  { matched := false, signature_id := -1, distance := 0, confidence := 0
    match_time_ms := 0, d_struct := 0, avg_luminance := avg_luminance }

/-- `Signature`, `src/signature_bank.hpp` lines 72-93. -/
structure Signature where
  signature_id : ℤ
  gabor_fingerprint : List ℝ
  semantic_profile : List ℝ
  context_vector : List ℝ
  motion_signature : List ℝ
  first_seen : ℝ
  last_seen : ℝ
  occurrence_count : ℤ
  persistence_trace : ℝ
  last_match_time : ℝ
  historical_risk : ℝ
  false_alarm_rate : ℝ
  refractory_until : ℝ
  avg_luminance : ℝ

/-- The configuration of `SignatureBank` after its constructor ran
(`src/signature_bank.hpp` lines 108-144): guards applied, weights
normalized by their sum. -/
structure BankConfig where
  max_signatures : ℕ
  match_threshold : ℝ
  forgetting_period : ℝ
  trace_tau : ℝ
  trace_increment : ℝ
  trace_cap : ℝ
  adapt_rate : ℝ
  adapt_min_confidence : ℝ
  refractory_sec : ℝ
  w_gabor : ℝ
  w_semantic : ℝ
  w_context : ℝ
  w_motion : ℝ

open Classical in
/-- The `SignatureBank` constructor, `src/signature_bank.hpp`
lines 108-144. -/
noncomputable def mkBankConfig (max_signatures : ℕ) (match_threshold
    forgetting_period trace_tau trace_increment trace_cap adapt_rate
    adapt_min_confidence w_gabor w_semantic w_context w_motion
    refractory_sec : ℝ) : BankConfig :=
  let wsum := w_gabor + w_semantic + w_context + w_motion
  { max_signatures := max_signatures
    match_threshold := match_threshold
    forgetting_period := forgetting_period
    trace_tau := if trace_tau > 1/1000 then trace_tau else 1/1000
    trace_increment := trace_increment
    trace_cap := trace_cap
    adapt_rate := c_clamp adapt_rate 0 1
    adapt_min_confidence := adapt_min_confidence
    refractory_sec := max 0 refractory_sec
    w_gabor := w_gabor / wsum
    w_semantic := w_semantic / wsum
    w_context := w_context / wsum
    w_motion := w_motion / wsum }

/-- The default-argument configuration of `SignatureBank`. -/
noncomputable def defaultBankConfig : BankConfig :=
  mkBankConfig 1000 (3/10) 3600 4 1 10 (5/100) (6/10)
    (5/10) (3/10) (1/10) (1/10) 0

/-- Mutable state of a `SignatureBank` instance. -/
structure SignatureBank where
  cfg : BankConfig
  signatures : List Signature
  next_id : ℤ
  total_matches : ℕ
  total_registrations : ℕ
  total_prunes : ℕ

noncomputable def SignatureBank.emptyBank (cfg : BankConfig) : SignatureBank :=
  { cfg := cfg, signatures := [], next_id := 0
    total_matches := 0, total_registrations := 0, total_prunes := 0 }

open Classical in
/-- `decay_trace`, `src/signature_bank.hpp` lines 453-459. -/
noncomputable def decay_trace (cfg : BankConfig) (sig : Signature) (now : ℝ) :
    Signature :=
  if sig.last_match_time ≤ 0 then sig
  else
    let dt := max 0 (now - sig.last_match_time)
    { sig with persistence_trace :=
        sig.persistence_trace * Real.exp (-dt / cfg.trace_tau) }

/-- `update_trace`, `src/signature_bank.hpp` lines 461-467. -/
noncomputable def update_trace (cfg : BankConfig) (sig : Signature) (now : ℝ) :
    Signature :=
  let sig := decay_trace cfg sig now
  { sig with
    persistence_trace := min cfg.trace_cap (sig.persistence_trace + cfg.trace_increment)
    last_match_time := now }

/-- `ema_update`, `src/signature_bank.hpp` lines 469-477: blend the
first `min (length old) (length new)` entries, keep any tail of
`old_v`, then re-normalize. -/
noncomputable def ema_update (old_v new_v : List ℝ) (lr : ℝ) : List ℝ :=
  sb_safe_unit_norm (old_v.enum.map fun p =>
    match new_v.get? p.1 with
    | some y => (1 - lr) * p.2 + lr * y
    | none => p.2)

open Classical in
/-- The candidate scan of `find_match_full` (`src/signature_bank.hpp`
lines 167-191): best index, best weighted distance and its structural
part.  The C++ sentinel pair `best_index = -1` / `best_dist = +inf` is
modelled by `Option`. -/
noncomputable def find_best_candidate (cfg : BankConfig) (now : ℝ)
    (gabor_fp semantic_prof context_vec motion_sig : List ℝ)
    (sigs : List (ℕ × Signature)) : Option (ℕ × Signature × ℝ × ℝ) :=
  sigs.foldl
    (fun best p =>
      if now < p.2.refractory_until then best
      else
        let d_struct :=
          cfg.w_gabor * sb_l2_distance gabor_fp p.2.gabor_fingerprint +
          cfg.w_semantic * sb_l2_distance semantic_prof p.2.semantic_profile
        let d_context :=
          cfg.w_context * sb_l2_distance context_vec p.2.context_vector +
          cfg.w_motion * sb_l2_distance motion_sig p.2.motion_signature
        let d := d_struct + d_context
        match best with
        | none => some (p.1, p.2, d, d_struct)
        | some (bi, bsig, bd, bds) =>
          if d < bd then some (p.1, p.2, d, d_struct)
          else some (bi, bsig, bd, bds))
    none

open Classical in
/-- `find_match_full`, `src/signature_bank.hpp` lines 149-226.
`now` models the `sb_now_seconds()` reading; the trailing
`match_time_ms` wall-clock measurement is modelled as `0`. -/
noncomputable def find_match_full (bank : SignatureBank)
    (gabor_fp semantic_prof context_vec motion_sig : List ℝ)
    (current_luminance now : ℝ) : MatchResult × SignatureBank :=
  let res := MatchResult.init current_luminance
  if bank.signatures = [] then (res, bank)
  else
    match find_best_candidate bank.cfg now gabor_fp semantic_prof context_vec
        motion_sig bank.signatures.enum with
    | none => (res, bank)
    | some (bi, bsig, best_dist, best_dstruct) =>
      if best_dist ≤ bank.cfg.match_threshold then
        let sig := { bsig with last_seen := now
                               occurrence_count := bsig.occurrence_count + 1 }
        let sig := update_trace bank.cfg sig now
        let raw_conf := Real.exp (-best_dist / bank.cfg.match_threshold)
        let sig :=
          if raw_conf ≥ bank.cfg.adapt_min_confidence ∧ bank.cfg.adapt_rate > 0 then
            let lr := bank.cfg.adapt_rate * raw_conf
            { sig with
              gabor_fingerprint := ema_update sig.gabor_fingerprint gabor_fp lr
              semantic_profile := ema_update sig.semantic_profile semantic_prof lr
              context_vector := ema_update sig.context_vector context_vec lr
              motion_signature := ema_update sig.motion_signature motion_sig lr }
          else sig
        let sig :=
          if bank.cfg.refractory_sec > 0 then
            { sig with refractory_until := now + bank.cfg.refractory_sec }
          else sig
        ({ res with matched := true
                    signature_id := sig.signature_id
                    distance := best_dist
                    d_struct := best_dstruct },
         { bank with signatures := bank.signatures.set bi sig
                     total_matches := bank.total_matches + 1 })
      else (res, bank)

open Classical in
/-- `compute_confidence`, `src/signature_bank.hpp` lines 231-258. -/
noncomputable def compute_confidence (bank : SignatureBank) (m : MatchResult)
    (growth_risk growth_accel : ℝ) : ℝ :=
  if !m.matched then 0
  else
    match bank.signatures.find? (fun s => s.signature_id = m.signature_id) with
    | none => 0
    | some sig =>
      let f_struct :=
        if bank.cfg.match_threshold > 1/1000000 then
          Real.exp (-2 * m.d_struct / bank.cfg.match_threshold)
        else 1
      let f_sim :=
        if bank.cfg.match_threshold > 1/1000000 then
          Real.exp (-1 * m.distance / bank.cfg.match_threshold)
        else 1
      let f := (7/10) * f_struct + (3/10) * f_sim
      let F := min (sig.persistence_trace / bank.cfg.trace_cap) 1
      let Q := 1 - sig.false_alarm_rate
      let R := sig.historical_risk
      let growth_factor := 1 + (1/2) * growth_risk + (3/10) * max 0 growth_accel
      c_clamp (f * F * Q * (1 - R) * growth_factor) 0 1

open Classical in
/-- `prune`, `src/signature_bank.hpp` lines 480-518.  `std::sort` with
the `value <` comparator is modelled by a stable merge sort on the
same key (ties are ordered arbitrarily by the unstable C++ sort). -/
noncomputable def SignatureBank.prune (bank : SignatureBank) (now : ℝ) :
    SignatureBank :=
  if bank.signatures = [] then bank
  else
    let scored := bank.signatures.enum.map fun p =>
      (Real.exp (-(now - p.2.last_seen) / bank.cfg.forgetting_period) *
         min 1 ((p.2.occurrence_count : ℝ) / 10) *
         (p.2.historical_risk + 1/10),
       p.1)
    let sorted := scored.mergeSort fun a b => decide (a.1 ≤ b.1)
    let remove_n := max 1 (scored.length / 10)
    let to_remove := (sorted.take remove_n).map (·.2)
    { bank with
      signatures := (bank.signatures.enum.filter
        (fun p => p.1 ∉ to_remove)).map (·.2)
      total_prunes := bank.total_prunes + to_remove.length }

open Classical in
/-- `register_signature`, `src/signature_bank.hpp` lines 263-304. -/
noncomputable def register_signature (bank : SignatureBank)
    (gabor_fp semantic_prof context_vec motion_sig : List ℝ)
    (initial_risk avg_luminance now : ℝ) : ℤ × SignatureBank :=
  let bank :=
    if bank.cfg.max_signatures ≤ bank.signatures.length then bank.prune now
    else bank
  let sid := bank.next_id
  let sig : Signature :=
    { signature_id := sid
      gabor_fingerprint := sb_safe_unit_norm gabor_fp
      semantic_profile := sb_safe_unit_norm semantic_prof
      context_vector := sb_safe_unit_norm context_vec
      motion_signature := sb_safe_unit_norm motion_sig
      first_seen := now
      last_seen := now
      occurrence_count := 1
      persistence_trace := 0
      last_match_time := 0
      historical_risk := c_clamp initial_risk 0 1
      false_alarm_rate := 0
      refractory_until := 0
      avg_luminance := avg_luminance }
  (sid,
    { bank with signatures := bank.signatures ++ [sig]
                next_id := bank.next_id + 1
                total_registrations := bank.total_registrations + 1 })

/-! ## Theorems -/

/-- A concrete valid, fresh (age 0) snapshot used in the fusion
counterexamples: `crack_risk = 1/2`, all obstacle risks `0`. -/
def snapHalfCrack : YoloSnapshot :=
  { timestamp_s := 0, front_risk := 0, left_risk := 0, right_risk := 0
    crack_risk := 1/2, min_distance_m := 0, max_confidence := 0
    num_detections := 0, priority_detections := 0, num_filtered_out := 0
    valid := true }

/-- C1 counterexample: a valid snapshot of age `0` with
`crack_risk = 1/2`, `front_risk = 0` and raw crack `1/5` satisfies the
claim's guard (`semantic_risk = 1/2 > 0.30`, `raw = 1/5 > 0.05`), yet
the sensing kernel's fusion returns `1/4` (boost `1 + 1/2·1/2`), not
the spec formula's `7/20` (`min(1, 1/5·(1 + 1.5·1/2))`). -/
theorem C1_fusion_formula_counterexample :
    (snapHalfCrack.valid = true ∧
      (0 : ℚ) - snapHalfCrack.timestamp_s = 0 ∧
      (0 : ℚ) - snapHalfCrack.timestamp_s ≤ YOLO_MAX_AGE_S) ∧
    apply_yolo_fusion_lockfree snapHalfCrack (1/5) 0 = 1/4 ∧
    fuse_crack (1/5) snapHalfCrack.crack_risk snapHalfCrack.front_risk
      defaultAccuracyConfig = 7/20 ∧
    apply_yolo_fusion_lockfree snapHalfCrack (1/5) 0 ≠
      fuse_crack (1/5) snapHalfCrack.crack_risk snapHalfCrack.front_risk
        defaultAccuracyConfig := by
  refine ⟨⟨rfl, by norm_num [snapHalfCrack], by norm_num [snapHalfCrack, YOLO_MAX_AGE_S]⟩, ?_, ?_, ?_⟩
  · norm_num [apply_yolo_fusion_lockfree, snapHalfCrack, YOLO_MAX_AGE_S]
  · norm_num [fuse_crack, snapHalfCrack, defaultAccuracyConfig]
  · norm_num [apply_yolo_fusion_lockfree, fuse_crack, snapHalfCrack,
      defaultAccuracyConfig, YOLO_MAX_AGE_S]

/-- C1 amended: on every sensing-kernel frame that observes a valid
snapshot whose age does not exceed `YOLO_MAX_AGE_S = 5 s` (negative
ages included), the fused crack score is
`min(1, raw · boost)` with `boost = (1 + crack_risk/2)`, further scaled
by `0.7` when `max(front_risk, left_risk, right_risk) > 0.6`; the
spec's `max(crack_risk, front_risk)`-based formula is not used. -/
theorem C1_fusion_boost_amended (s : RTState) (env : RTEnv) (buf : ℕ → ℕ)
    (height width : ℕ)
    (hv : env.yolo.valid = true)
    (hage : env.now - env.yolo.timestamp_s ≤ YOLO_MAX_AGE_S)
    (hh : height = TARGET_HEIGHT) (hw : width = TARGET_WIDTH) :
    (rt_core_process_frame_ptr s env (some buf) height width).1.fused_crack_score =
      min 1 ((rt_core_process_frame_ptr s env (some buf) height width).1.crack_score *
        (if max env.yolo.front_risk (max env.yolo.left_risk env.yolo.right_risk) > 3/5
         then (1 + env.yolo.crack_risk * (1/2)) * (7/10)
         else 1 + env.yolo.crack_risk * (1/2))) := by
  subst hh hw
  simp only [rt_core_process_frame_ptr, ne_eq, not_true_eq_false, false_or,
    if_neg (show ¬(TARGET_HEIGHT ≠ TARGET_HEIGHT ∨ TARGET_WIDTH ≠ TARGET_WIDTH) by simp)]
  simp only [apply_yolo_fusion_lockfree, hv, Bool.not_true, Bool.false_eq_true,
    if_false, if_neg (not_lt.mpr hage), make_control_decision]

/-- Witness for `C1_fusion_boost_amended` at a concrete state, frame
and snapshot. -/
theorem C1_fusion_boost_amended_witness :
    ({ yolo := snapHalfCrack, now := 0, target_hz := 5, latency_ms := 0 : RTEnv}.yolo.valid = true) ∧
    ((0:ℚ) - snapHalfCrack.timestamp_s ≤ YOLO_MAX_AGE_S) ∧
    ((rt_core_process_frame_ptr initRTState
        { yolo := snapHalfCrack, now := 0, target_hz := 5, latency_ms := 0 }
        (some fun _ => 0) TARGET_HEIGHT TARGET_WIDTH).1.fused_crack_score =
      min 1 ((rt_core_process_frame_ptr initRTState
        { yolo := snapHalfCrack, now := 0, target_hz := 5, latency_ms := 0 }
        (some fun _ => 0) TARGET_HEIGHT TARGET_WIDTH).1.crack_score *
        (if max snapHalfCrack.front_risk (max snapHalfCrack.left_risk snapHalfCrack.right_risk) > 3/5
         then (1 + snapHalfCrack.crack_risk * (1/2)) * (7/10)
         else 1 + snapHalfCrack.crack_risk * (1/2)))) :=
  ⟨rfl, by norm_num [snapHalfCrack, YOLO_MAX_AGE_S],
    C1_fusion_boost_amended initRTState
      { yolo := snapHalfCrack, now := 0, target_hz := 5, latency_ms := 0 }
      (fun _ => 0) TARGET_HEIGHT TARGET_WIDTH rfl
      (by norm_num [snapHalfCrack, YOLO_MAX_AGE_S]) rfl rfl⟩

/-- C2 counterexample: a valid snapshot with negative age (clock skew:
timestamp `10`, now `0`, age `-10`) is NOT treated as absent by the
sensing kernel — with `crack_risk = 1` it boosts raw crack `1/2` to
`3/4`; moreover the staleness cutoff is `YOLO_MAX_AGE_S = 5 s`, not
200 ms, and age exactly equal to the cutoff still fuses. -/
theorem C2_stale_semantic_counterexample :
    (let snap := { snapHalfCrack with timestamp_s := 10, crack_risk := 1 }
     snap.valid = true ∧ (0 : ℚ) - snap.timestamp_s < 0 ∧
     apply_yolo_fusion_lockfree snap (1/2) 0 = 3/4 ∧
     apply_yolo_fusion_lockfree snap (1/2) 0 ≠ 1/2) ∧
    (let snapAtMax := { snapHalfCrack with timestamp_s := 0, crack_risk := 1 }
     (5 : ℚ) - snapAtMax.timestamp_s = YOLO_MAX_AGE_S ∧
     apply_yolo_fusion_lockfree snapAtMax (1/2) 5 ≠ 1/2) := by
  refine ⟨⟨rfl, by norm_num [snapHalfCrack], ?_, ?_⟩, by norm_num [snapHalfCrack, YOLO_MAX_AGE_S], ?_⟩ <;>
    norm_num [apply_yolo_fusion_lockfree, snapHalfCrack, YOLO_MAX_AGE_S]

/-- C2 amended: the sensing kernel treats the snapshot as absent (fused
crack = raw crack, no semantic influence) exactly on the invalid or
`age > YOLO_MAX_AGE_S = 5 s` branches; negative age and age equal to
the cutoff count as fresh, and the default cutoff is 5 s, not 200 ms. -/
theorem C2_stale_semantic_amended (snap : YoloSnapshot) (raw now : ℚ)
    (h : snap.valid = false ∨ now - snap.timestamp_s > YOLO_MAX_AGE_S) :
    apply_yolo_fusion_lockfree snap raw now = raw := by
  unfold apply_yolo_fusion_lockfree
  rcases h with h | h
  · rw [if_pos]
    rw [h]
    rfl
  · by_cases hv : snap.valid <;> simp [hv, if_pos h]

/-- Witness for `C2_stale_semantic_amended`: an invalid snapshot and a
6-second-old valid snapshot both pass the raw score through. -/
theorem C2_stale_semantic_amended_witness :
    (({ snapHalfCrack with valid := false } : YoloSnapshot).valid = false ∨
      (6 : ℚ) - ({ snapHalfCrack with valid := false } : YoloSnapshot).timestamp_s > YOLO_MAX_AGE_S) ∧
    apply_yolo_fusion_lockfree { snapHalfCrack with valid := false } (9/10) 6 = 9/10 :=
  ⟨Or.inl rfl,
    C2_stale_semantic_amended { snapHalfCrack with valid := false } (9/10) 6 (Or.inl rfl)⟩

/-- C3 counterexample: at `fused_crack = 0.501 ∈ [0,1]` the LUT
quantizes to index `⌊0.501·255⌋ = 127`, whose entry is `0.7`
(`127/255 ≤ 0.5`), while the threshold map gives `0.3`
(`0.501 > 0.5`). -/
theorem C3_throttle_lut_counterexample :
    ((0 : ℚ) ≤ 501/1000 ∧ (501/1000 : ℚ) ≤ 1) ∧
    throttle_from_crack_lut (501/1000) = 7/10 ∧
    spec_throttle_map (501/1000) = 3/10 ∧
    throttle_from_crack_lut (501/1000) ≠ spec_throttle_map (501/1000) := by
  have hfl : ⌊(501/1000 * 255 : ℚ)⌋ = 127 := by norm_num
  have hlut : throttle_from_crack_lut (501/1000) = 7/10 := by
    simp only [throttle_from_crack_lut, c_trunc, c_clamp, g_throttle_lut]
    rw [if_pos (by norm_num : (0:ℚ) ≤ 501/1000*255), hfl]
    have ht : ((Int.toNat 127 : ℕ) : ℚ) = 127 := by simp
    norm_num [ht]
  have hmap : spec_throttle_map (501/1000) = 3/10 := by
    norm_num [spec_throttle_map]
  exact ⟨by norm_num, hlut, hmap, by rw [hlut, hmap]; norm_num⟩

/-- C3 amended: for every `fused_crack ∈ [0,1]` the 256-entry lookup
equals the threshold map applied at the quantized index
`⌊fused_crack·255⌋`: `0.3` iff `fused_crack ≥ 128/255`, `0.7` iff
`52/255 ≤ fused_crack < 128/255`, else `1.0`; it agrees with the
plain `>0.5 / >0.2` map except on the quantization gaps
`(0.5, 128/255)` and `(0.2, 52/255)`. -/
theorem C3_throttle_lut_amended (c : ℚ) (h0 : 0 ≤ c) (h1 : c ≤ 1) :
    throttle_from_crack_lut c =
      (if 128/255 ≤ c then 3/10 else if 52/255 ≤ c then 7/10 else 1) := by
  have hc : (0 : ℚ) ≤ c * 255 := by positivity
  have hfl0 : (0 : ℤ) ≤ ⌊c * 255⌋ := Int.floor_nonneg.mpr hc
  have hfl255 : ⌊c * 255⌋ ≤ 255 := by
    have h : c * 255 ≤ (255 : ℚ) := by nlinarith
    calc ⌊c * 255⌋ ≤ ⌊(255 : ℚ)⌋ := Int.floor_le_floor h
      _ = 255 := by norm_num
  have hcast : ((⌊c * 255⌋.toNat : ℕ) : ℚ) = ((⌊c * 255⌋ : ℤ) : ℚ) := by
    exact_mod_cast congrArg (fun z : ℤ => (z : ℚ)) (Int.toNat_of_nonneg hfl0)
  have hkey : ∀ k : ℤ, (k : ℚ) ≤ ((⌊c * 255⌋ : ℤ) : ℚ) ↔ (k : ℚ) ≤ c * 255 := by
    intro k
    constructor
    · intro h
      exact le_trans h (Int.floor_le _)
    · intro h
      exact_mod_cast Int.le_floor.mpr h
  simp only [throttle_from_crack_lut, c_trunc, c_clamp, g_throttle_lut,
    if_pos hc, if_neg (not_lt.mpr hfl0), if_neg (not_lt.mpr hfl255)]
  have h128 : ((⌊c * 255⌋.toNat : ℕ) : ℚ) / 255 > 1/2 ↔ 128/255 ≤ c := by
    rw [hcast, gt_iff_lt, lt_div_iff₀ (by norm_num : (0:ℚ) < 255)]
    constructor
    · intro h
      have hz : (127 : ℤ) < ⌊c * 255⌋ := by exact_mod_cast
        show (127 : ℚ) < ((⌊c * 255⌋ : ℤ) : ℚ) by linarith
      have hz2 : (128 : ℤ) ≤ ⌊c * 255⌋ := by omega
      have h3 : (128 : ℚ) ≤ c * 255 := (hkey 128).mp (by exact_mod_cast hz2)
      linarith
    · intro h
      have h3 : (128 : ℚ) ≤ ((⌊c * 255⌋ : ℤ) : ℚ) := (hkey 128).mpr (by push_cast; linarith)
      linarith
  have h52 : ((⌊c * 255⌋.toNat : ℕ) : ℚ) / 255 > 1/5 ↔ 52/255 ≤ c := by
    rw [hcast, gt_iff_lt, lt_div_iff₀ (by norm_num : (0:ℚ) < 255)]
    constructor
    · intro h
      have hz : (51 : ℤ) < ⌊c * 255⌋ := by exact_mod_cast
        show (51 : ℚ) < ((⌊c * 255⌋ : ℤ) : ℚ) by linarith
      have hz2 : (52 : ℤ) ≤ ⌊c * 255⌋ := by omega
      have h3 : (52 : ℚ) ≤ c * 255 := (hkey 52).mp (by exact_mod_cast hz2)
      linarith
    · intro h
      have h3 : (52 : ℚ) ≤ ((⌊c * 255⌋ : ℤ) : ℚ) := (hkey 52).mpr (by push_cast; linarith)
      linarith
  by_cases hA : 128/255 ≤ c
  · rw [if_pos (h128.mpr hA), if_pos hA]
  · rw [if_neg (fun h => hA (h128.mp h)), if_neg hA]
    by_cases hB : 52/255 ≤ c
    · rw [if_pos (h52.mpr hB), if_pos hB]
    · rw [if_neg (fun h => hB (h52.mp h)), if_neg hB]

/-- Witness for `C3_throttle_lut_amended` at `fused_crack = 3/5`. -/
theorem C3_throttle_lut_amended_witness :
    ((0 : ℚ) ≤ 3/5 ∧ (3/5 : ℚ) ≤ 1) ∧
    throttle_from_crack_lut (3/5) =
      (if (128/255 : ℚ) ≤ 3/5 then 3/10 else if (52/255 : ℚ) ≤ 3/5 then 7/10 else 1) :=
  ⟨⟨by norm_num, by norm_num⟩,
    C3_throttle_lut_amended (3/5) (by norm_num) (by norm_num)⟩

/-- C4 confirmed: the action label of every `ControlDecision` built by
`MultiRateEngine::make_decision` is one of the byte-exact strings
`CLEAR`/`CAUTION`/`SLOW`/`STOP`; it is `CLEAR` iff
`fused_crack ≤ 0.10`, `STOP` iff `fused_crack > 0.70`, `SLOW` iff
`0.40 < fused_crack ≤ 0.70`, `CAUTION` iff `0.10 < fused_crack ≤ 0.40`
— every boundary is strict `>`, so a score equal to a threshold takes
the lower-severity label. -/
theorem C4_action_label (output : ControlOutput) (sig_conf timestamp semantic_age : ℚ) :
    ((MultiRateEngine.make_decision output sig_conf timestamp semantic_age).action = "CLEAR" ∨
     (MultiRateEngine.make_decision output sig_conf timestamp semantic_age).action = "CAUTION" ∨
     (MultiRateEngine.make_decision output sig_conf timestamp semantic_age).action = "SLOW" ∨
     (MultiRateEngine.make_decision output sig_conf timestamp semantic_age).action = "STOP")
    ∧ ((MultiRateEngine.make_decision output sig_conf timestamp semantic_age).action = "CLEAR" ↔
        output.fused_crack_score ≤ 1/10)
    ∧ ((MultiRateEngine.make_decision output sig_conf timestamp semantic_age).action = "STOP" ↔
        7/10 < output.fused_crack_score)
    ∧ ((MultiRateEngine.make_decision output sig_conf timestamp semantic_age).action = "SLOW" ↔
        2/5 < output.fused_crack_score ∧ output.fused_crack_score ≤ 7/10)
    ∧ ((MultiRateEngine.make_decision output sig_conf timestamp semantic_age).action = "CAUTION" ↔
        1/10 < output.fused_crack_score ∧ output.fused_crack_score ≤ 2/5) := by
  simp only [MultiRateEngine.make_decision]
  split_ifs with h1 h2 h3
  · exact ⟨Or.inr (Or.inr (Or.inr rfl)),
      iff_of_false (by decide) (by push_neg; linarith),
      iff_of_true rfl h1,
      iff_of_false (by decide) (by rintro ⟨_, hb⟩; linarith),
      iff_of_false (by decide) (by rintro ⟨_, hb⟩; linarith)⟩
  · push_neg at h1
    exact ⟨Or.inr (Or.inr (Or.inl rfl)),
      iff_of_false (by decide) (by push_neg; linarith),
      iff_of_false (by decide) (by push_neg; linarith),
      iff_of_true rfl ⟨h2, h1⟩,
      iff_of_false (by decide) (by rintro ⟨_, hb⟩; linarith)⟩
  · push_neg at h1 h2
    exact ⟨Or.inr (Or.inl rfl),
      iff_of_false (by decide) (by push_neg; linarith),
      iff_of_false (by decide) (by push_neg; linarith),
      iff_of_false (by decide) (by rintro ⟨ha, _⟩; linarith),
      iff_of_true rfl ⟨h3, h2⟩⟩
  · push_neg at h1 h2 h3
    exact ⟨Or.inl rfl,
      iff_of_true rfl h3,
      iff_of_false (by decide) (by push_neg; linarith),
      iff_of_false (by decide) (by rintro ⟨ha, _⟩; linarith),
      iff_of_false (by decide) (by rintro ⟨ha, _⟩; linarith)⟩

/-- C9 counterexample: in `lane1_control` the CONTROL callback job is
pushed to the L6 queue (line 308) strictly BEFORE the UplinkPayload is
pushed to the L4 queue (line 331), so within one frame the L6 enqueue
does not come after the L4 enqueue as the claim states. -/
theorem C9_enqueue_order_counterexample :
    (lane1_enqueue_order false).indexOf Lane1Event.control_push = 2 ∧
    (lane1_enqueue_order false).indexOf Lane1Event.uplink_push = 3 ∧
    ¬ (lane1_enqueue_order false).indexOf Lane1Event.uplink_push <
      (lane1_enqueue_order false).indexOf Lane1Event.control_push := by
  refine ⟨?_, ?_, ?_⟩ <;> decide

/-- C9 amended: within Lane 1's processing of any single frame_id the
ControlDecision callback job is enqueued to the L6 callback queue
BEFORE the UplinkPayload for the same frame is enqueued to the L4
uplink queue, whether or not the gated L3 job is pushed. -/
theorem C9_enqueue_order_amended (should_run_yolo : Bool) :
    (lane1_enqueue_order should_run_yolo).indexOf Lane1Event.control_push <
      (lane1_enqueue_order should_run_yolo).indexOf Lane1Event.uplink_push := by
  cases should_run_yolo <;> decide

/-- In a state the producer can reach while the consumer is idle
(`cached_head = head = 0`) with room for `vs`, a burst of pushes all
succeed, the tail advances by `vs.length` and nothing is dropped. -/
theorem push_burst_succeeds {α : Type} {N : ℕ} (vs : List α) :
    ∀ q : LFQueue α N, q.cached_head = 0 → q.head = 0 →
      q.tail + vs.length ≤ N →
      (∀ b ∈ (q.push_burst vs).1, b = true) ∧
      (q.push_burst vs).2.tail = q.tail + vs.length ∧
      (q.push_burst vs).2.head = 0 ∧
      (q.push_burst vs).2.cached_head = 0 ∧
      (q.push_burst vs).2.drop_count = q.drop_count := by
  induction vs with
  | nil =>
    intro q hch hh _
    exact ⟨by simp [LFQueue.push_burst], by simp [LFQueue.push_burst], hh, hch, rfl⟩
  | cons v rest ih =>
    intro q hch hh hroom
    have htail : q.tail < N := by
      simp only [List.length_cons] at hroom
      omega
    have hfast : ¬ N ≤ q.tail - q.cached_head := by
      rw [hch]
      omega
    have hstep : q.push_impl v =
        (true, { q with
          buffer := fun i => if i = q.tail % N then some v else q.buffer i
          tail := q.tail + 1
          push_count := q.push_count + 1 }) := by
      unfold LFQueue.push_impl
      rw [if_neg hfast]
    have hroom2 : q.tail + 1 + rest.length ≤ N := by
      simp only [List.length_cons] at hroom
      omega
    set q2 : LFQueue α N := { q with
        buffer := fun i => if i = q.tail % N then some v else q.buffer i
        tail := q.tail + 1
        push_count := q.push_count + 1 } with hq2
    have ihq := ih q2 hch hh hroom2
    have hburst : q.push_burst (v :: rest) =
        (true :: (q2.push_burst rest).1, (q2.push_burst rest).2) := by
      simp only [LFQueue.push_burst, hstep]
    rw [hburst]
    refine ⟨?_, ?_, ihq.2.2.1, ihq.2.2.2.1, ihq.2.2.2.2⟩
    · rintro b hb
      rcases List.mem_cons.mp hb with rfl | hb2
      · rfl
      · exact ihq.1 b hb2
    · rw [ihq.2.1]
      simp only [hq2, List.length_cons]
      omega

/-- `push_impl` fails exactly when `tail − head ≥ N` still holds after
the refresh, in any state where the producer's cached head is a stale
copy of the consumer's counter (`cached_head ≤ head ≤ tail`). -/
theorem push_impl_fail_iff {α : Type} {N : ℕ} (q : LFQueue α N) (w : α)
    (h1 : q.cached_head ≤ q.head) (_h2 : q.head ≤ q.tail) :
    ((q.push_impl w).1 = false) ↔ N ≤ q.tail - q.head := by
  simp only [LFQueue.push_impl]
  split_ifs with ha hb
  · simp [hb]
  · simp [hb]
  · simp only [Bool.true_eq_false, false_iff]
    intro hcon
    exact ha (le_trans hcon (Nat.sub_le_sub_left h1 q.tail))

/-- On failure `push_impl` leaves the ring contents (`buffer`, `tail`,
`head`) unchanged and increments the drop counter by exactly 1. -/
theorem push_impl_fail_unchanged {α : Type} {N : ℕ} (q : LFQueue α N) (w : α)
    (hfail : (q.push_impl w).1 = false) :
    (q.push_impl w).2.buffer = q.buffer ∧
    (q.push_impl w).2.tail = q.tail ∧
    (q.push_impl w).2.head = q.head ∧
    (q.push_impl w).2.drop_count = q.drop_count + 1 := by
  simp only [LFQueue.push_impl] at hfail ⊢
  split_ifs with ha hb
  · exact ⟨rfl, rfl, rfl, rfl⟩
  · rw [if_pos ha, if_neg hb] at hfail
    exact absurd hfail (by simp)
  · rw [if_neg ha] at hfail
    exact absurd hfail (by simp)

/-- C6: producer-only burst into an empty SPSC ring of capacity `N`:
all `N` `try_push` calls succeed; the `(N+1)`-th fails with Full and
bumps the drop counter from 0 to exactly 1; and in general `try_push`
fails exactly when `tail − cached_head ≥ N` survives the refresh of
`cached_head` from the shared head counter, leaving the ring contents
unchanged on failure. -/
theorem C6_spsc_burst (α : Type) (N : ℕ) (vs : List α) (v : α)
    (hlen : vs.length = N) :
    (∀ b ∈ ((LFQueue.empty α N).push_burst vs).1, b = true) ∧
    ((((LFQueue.empty α N).push_burst vs).2.push_impl v).1 = false) ∧
    ((LFQueue.empty α N).push_burst vs).2.drop_count = 0 ∧
    (((LFQueue.empty α N).push_burst vs).2.push_impl v).2.drop_count = 1 ∧
    (∀ (q : LFQueue α N) (w : α), q.cached_head ≤ q.head → q.head ≤ q.tail →
      (((q.push_impl w).1 = false) ↔ N ≤ q.tail - q.head)) ∧
    (∀ (q : LFQueue α N) (w : α), (q.push_impl w).1 = false →
      (q.push_impl w).2.buffer = q.buffer ∧ (q.push_impl w).2.tail = q.tail ∧
      (q.push_impl w).2.head = q.head ∧
      (q.push_impl w).2.drop_count = q.drop_count + 1) := by
  have hempty := push_burst_succeeds vs (LFQueue.empty α N) rfl rfl
    (by simp [LFQueue.empty, hlen])
  obtain ⟨hall, htail, hhead, hcached, hdrop⟩ := hempty
  have htailN : ((LFQueue.empty α N).push_burst vs).2.tail = N := by
    rw [htail, hlen]
    simp [LFQueue.empty]
  have hfail : ((((LFQueue.empty α N).push_burst vs).2.push_impl v).1 = false) := by
    rw [push_impl_fail_iff _ _ (by rw [hcached, hhead]) (by rw [hhead]; omega)]
    rw [htailN, hhead]
    omega
  refine ⟨hall, hfail, ?_, ?_, push_impl_fail_iff, push_impl_fail_unchanged⟩
  · rw [hdrop]
    rfl
  · have := (push_impl_fail_unchanged _ v hfail).2.2.2
    rw [this, hdrop]
    rfl

/-- Witness for `C6_spsc_burst` with `N = 2` and the burst `[5, 6]`. -/
theorem C6_spsc_burst_witness :
    ([5, 6] : List ℕ).length = 2 ∧
    ((∀ b ∈ ((LFQueue.empty ℕ 2).push_burst [5, 6]).1, b = true) ∧
     (((LFQueue.empty ℕ 2).push_burst [5, 6]).2.push_impl 7).1 = false ∧
     ((LFQueue.empty ℕ 2).push_burst [5, 6]).2.drop_count = 0 ∧
     (((LFQueue.empty ℕ 2).push_burst [5, 6]).2.push_impl 7).2.drop_count = 1 ∧
     (∀ (q : LFQueue ℕ 2) (w : ℕ), q.cached_head ≤ q.head → q.head ≤ q.tail →
       (((q.push_impl w).1 = false) ↔ 2 ≤ q.tail - q.head)) ∧
     (∀ (q : LFQueue ℕ 2) (w : ℕ), (q.push_impl w).1 = false →
       (q.push_impl w).2.buffer = q.buffer ∧ (q.push_impl w).2.tail = q.tail ∧
       (q.push_impl w).2.head = q.head ∧
       (q.push_impl w).2.drop_count = q.drop_count + 1)) :=
  ⟨rfl, C6_spsc_burst ℕ 2 [5, 6] 7 rfl⟩

/-- C7 confirmed: on a gating engine with no inference yet
(`last_infer_time_ms = 0`, as after construction or `reset`),
`ms_since_last_infer` is simulated as `max_skip_time_ms + 1`, so the
first `decide` call always returns `should_infer = true`; if moreover
the call is not forced, the crack score is below the critical
threshold and the frame counter (after its increment) is below
`max_skip_frames` — e.g. the claim's
`crack = 0, matched = true, confidence = 0.99, max_skip_frames > 1` —
the reason is `MaxSkipTime`; and every call resolves to the first
condition that holds of the fixed cascade ForcedInfer, CriticalCrack,
MaxSkipFrames, MaxSkipTime, NovelScene, LowConfidence,
HighConfidenceSkip. -/
theorem C7_gating_first_cycle (cfg : GatingConfig) (st : GatingState)
    (sig : SignatureMatch) (now crack : ℚ) (force : Bool)
    (hfresh : st.last_infer_time_ms = 0) :
    (GatingEngine.decide cfg st sig now crack force).1.should_infer = true ∧
    (force = false → crack < cfg.critical_crack_threshold →
      st.frames_since_last_infer + 1 < cfg.max_skip_frames →
      (GatingEngine.decide cfg st sig now crack force).1.reason =
        GatingReason.MaxSkipTime) ∧
    (∀ (cfg2 : GatingConfig) (st2 : GatingState) (sig2 : SignatureMatch)
        (now2 crack2 : ℚ) (force2 : Bool),
      (GatingEngine.decide cfg2 st2 sig2 now2 crack2 force2).1.reason =
        gating_first_reason force2 crack2 cfg2.critical_crack_threshold
          (st2.frames_since_last_infer + 1) cfg2.max_skip_frames
          (if st2.last_infer_time_ms > 0 then now2 - st2.last_infer_time_ms
           else cfg2.max_skip_time_ms + 1)
          cfg2.max_skip_time_ms sig2.matched sig2.confidence
          cfg2.confidence_threshold ∧
      ((GatingEngine.decide cfg2 st2 sig2 now2 crack2 force2).1.should_infer = true ↔
        (GatingEngine.decide cfg2 st2 sig2 now2 crack2 force2).1.reason ≠
          GatingReason.HighConfidenceSkip)) := by
  refine ⟨?_, ?_, ?_⟩
  · simp only [GatingEngine.decide, GatingEngine.make_decision, hfresh]
    rw [if_neg (by norm_num : ¬ (0:ℚ) > 0)]
    split_ifs with h1 h2 h3 h4 h5 h6 <;>
      first
        | rfl
        | (exfalso; exact h4 (by linarith))
  · intro hforce hcrack hframes
    simp only [GatingEngine.decide, GatingEngine.make_decision, hfresh, hforce]
    rw [if_neg (by norm_num : ¬ (0:ℚ) > 0)]
    rw [if_neg (by simp), if_neg (not_le.mpr hcrack),
      if_neg (not_le.mpr (by simpa using hframes)),
      if_pos (by linarith : cfg.max_skip_time_ms + 1 ≥ cfg.max_skip_time_ms)]
  · intro cfg2 st2 sig2 now2 crack2 force2
    simp only [GatingEngine.decide, GatingEngine.make_decision, gating_first_reason]
    split_ifs <;> exact ⟨rfl, by simp⟩

/-- Witness for `C7_gating_first_cycle`: a freshly constructed engine
(`GatingState.fresh`), the claim's first call
(`crack = 0, matched = true, confidence = 0.99`, not forced) and a
configuration with `critical = 0.6`, `max_skip_frames = 30`. -/
theorem C7_gating_first_cycle_witness :
    GatingState.fresh.last_infer_time_ms = 0 ∧
    (GatingEngine.decide ⟨17/20, 30, 200, 3/5⟩ GatingState.fresh
        ⟨true, 99/100, 0, 0⟩ 0 0 false).1.should_infer = true ∧
    (false = false → (0:ℚ) < (3/5 : ℚ) →
      GatingState.fresh.frames_since_last_infer + 1 < 30 →
      (GatingEngine.decide ⟨17/20, 30, 200, 3/5⟩ GatingState.fresh
          ⟨true, 99/100, 0, 0⟩ 0 0 false).1.reason = GatingReason.MaxSkipTime) := by
  have h := C7_gating_first_cycle ⟨17/20, 30, 200, 3/5⟩ GatingState.fresh
    ⟨true, 99/100, 0, 0⟩ 0 0 false rfl
  exact ⟨rfl, h.1, fun _ _ _ => h.2.1 rfl (by norm_num) (by norm_num [GatingState.fresh])⟩

/-- Each interior pixel adds at most one spike (ON or OFF, never both). -/
theorem pixel_step_count_le (c p : ℕ → ℕ) (w y : ℕ) (st : PipeState) (x : ℕ) :
    (pixel_step c p w y st x).on_count + (pixel_step c p w y st x).off_count ≤
      st.on_count + st.off_count + 1 := by
  simp only [pixel_step]
  split_ifs <;> simp <;> omega

/-- Walking a list of columns adds at most its length to the counters. -/
theorem foldl_pixel_count_le (c p : ℕ → ℕ) (w y : ℕ) (xs : List ℕ) :
    ∀ st : PipeState,
      (xs.foldl (pixel_step c p w y) st).on_count +
        (xs.foldl (pixel_step c p w y) st).off_count ≤
      st.on_count + st.off_count + xs.length := by
  induction xs with
  | nil => intro st; simp
  | cons a xs ih =>
    intro st
    simp only [List.foldl_cons, List.length_cons]
    have h1 := ih (pixel_step c p w y st a)
    have h2 := pixel_step_count_le c p w y st a
    omega

/-- One row adds at most `width − 2` to the counters. -/
theorem row_step_count_le (c p : ℕ → ℕ) (w : ℕ) (st : PipeState) (y : ℕ) :
    (row_step c p w st y).on_count + (row_step c p w st y).off_count ≤
      st.on_count + st.off_count + (w - 2) := by
  simp only [row_step]
  have h := foldl_pixel_count_le c p w y ((List.range (w - 2)).map (· + 1))
    { st with on_curr := fun _ => false, off_curr := fun _ => false }
  simp only [List.length_map, List.length_range] at h
  exact h

/-- Walking a list of rows adds at most `length · (width − 2)`. -/
theorem foldl_row_count_le (c p : ℕ → ℕ) (w : ℕ) (ys : List ℕ) :
    ∀ st : PipeState,
      (ys.foldl (row_step c p w) st).on_count +
        (ys.foldl (row_step c p w) st).off_count ≤
      st.on_count + st.off_count + ys.length * (w - 2) := by
  induction ys with
  | nil => intro st; simp
  | cons a ys ih =>
    intro st
    simp only [List.foldl_cons, List.length_cons]
    have h1 := ih (row_step c p w st a)
    have h2 := row_step_count_le c p w st a
    have : (ys.length + 1) * (w - 2) = ys.length * (w - 2) + (w - 2) := by ring
    omega

/-- The single-pass pipeline counts at most one event per interior
pixel: `on + off ≤ (height − 2) · (width − 2)`. -/
theorem single_pass_pipeline_count_le (c p : ℕ → ℕ) (w h : ℕ) :
    (single_pass_pipeline c p w h).on_count +
      (single_pass_pipeline c p w h).off_count ≤ (h - 2) * (w - 2) := by
  simp only [single_pass_pipeline]
  have hb := foldl_row_count_le c p w ((List.range (h - 2)).map (· + 1)) initPipeState
  simp only [List.length_map, List.length_range,
    show initPipeState.on_count = 0 from rfl,
    show initPipeState.off_count = 0 from rfl] at hb
  omega

/-- C5 confirmed: for every frame processed at the sensing resolution
`(sh, sw) = (234, 416)`: on the first frame
`on = off = 0, crack_score = 0` and `is_null_cycle` is set; on every
frame `on + off ≤ (sh−2)·(sw−2)` (with equality to `0` on the first);
and `sparsity = 1 − (on+off)/(sh·sw)`, which lies in `[0, 1]`. -/
theorem C5_sensing_invariants (s : RTState) (env : RTEnv) (buf : ℕ → ℕ) :
    ((rt_core_process_frame_ptr s env (some buf) TARGET_HEIGHT TARGET_WIDTH).1.on_spike_count +
      (rt_core_process_frame_ptr s env (some buf) TARGET_HEIGHT TARGET_WIDTH).1.off_spike_count ≤
      (TARGET_HEIGHT - 2) * (TARGET_WIDTH - 2)) ∧
    (s.frame_count = 0 →
      (rt_core_process_frame_ptr s env (some buf) TARGET_HEIGHT TARGET_WIDTH).1.on_spike_count = 0 ∧
      (rt_core_process_frame_ptr s env (some buf) TARGET_HEIGHT TARGET_WIDTH).1.off_spike_count = 0 ∧
      (rt_core_process_frame_ptr s env (some buf) TARGET_HEIGHT TARGET_WIDTH).1.crack_score = 0 ∧
      (rt_core_process_frame_ptr s env (some buf) TARGET_HEIGHT TARGET_WIDTH).1.is_null_cycle = 1) ∧
    ((rt_core_process_frame_ptr s env (some buf) TARGET_HEIGHT TARGET_WIDTH).1.sparsity =
      1 - (((rt_core_process_frame_ptr s env (some buf) TARGET_HEIGHT TARGET_WIDTH).1.on_spike_count +
            (rt_core_process_frame_ptr s env (some buf) TARGET_HEIGHT TARGET_WIDTH).1.off_spike_count : ℕ) : ℚ) /
          ((TARGET_HEIGHT * TARGET_WIDTH : ℕ) : ℚ)) ∧
    (0 ≤ (rt_core_process_frame_ptr s env (some buf) TARGET_HEIGHT TARGET_WIDTH).1.sparsity) ∧
    ((rt_core_process_frame_ptr s env (some buf) TARGET_HEIGHT TARGET_WIDTH).1.sparsity ≤ 1) := by
  simp only [rt_core_process_frame_ptr,
    if_neg (show ¬(TARGET_HEIGHT ≠ TARGET_HEIGHT ∨ TARGET_WIDTH ≠ TARGET_WIDTH) by simp),
    make_control_decision]
  set pl : PipelineResult :=
    (if 0 < s.frame_count then
      single_pass_pipeline (bgr_to_gray_u8 buf) s.prev_gray TARGET_WIDTH TARGET_HEIGHT
    else { on_count := 0, off_count := 0, crack_score := 0 }) with hpl
  have hbound : pl.on_count + pl.off_count ≤ (TARGET_HEIGHT - 2) * (TARGET_WIDTH - 2) := by
    rw [hpl]
    split_ifs with h
    · exact single_pass_pipeline_count_le (bgr_to_gray_u8 buf) s.prev_gray
        TARGET_WIDTH TARGET_HEIGHT
    · simp
  have hboundQ : ((pl.on_count + pl.off_count : ℕ) : ℚ) ≤ 96048 := by
    have : pl.on_count + pl.off_count ≤ 96048 := le_trans hbound
      (by norm_num [TARGET_HEIGHT, TARGET_WIDTH])
    exact_mod_cast this
  have hTP : ((TOTAL_PIXELS : ℕ) : ℚ) = 97344 := by
    norm_num [TOTAL_PIXELS, TARGET_HEIGHT, TARGET_WIDTH]
  refine ⟨hbound, ?_, ?_, ?_, ?_⟩
  · intro h0
    have hpl0 : pl = { on_count := 0, off_count := 0, crack_score := 0 } := by
      rw [hpl, if_neg]
      omega
    rw [hpl0]
    exact ⟨rfl, rfl, rfl, by rw [if_pos h0]⟩
  · have hTPeq : ((TARGET_HEIGHT * TARGET_WIDTH : ℕ) : ℚ) = ((TOTAL_PIXELS : ℕ) : ℚ) := by
      norm_num [TOTAL_PIXELS]
    rw [hTPeq]
  · rw [hTP]
    have hdiv : ((pl.on_count + pl.off_count : ℕ) : ℚ) / 97344 ≤ 1 := by
      rw [div_le_one (by norm_num)]
      linarith
    push_cast at hdiv ⊢
    linarith
  · rw [hTP]
    have hdiv : 0 ≤ ((pl.on_count + pl.off_count : ℕ) : ℚ) / 97344 := by positivity
    push_cast at hdiv ⊢
    linarith

/-- Witness for `C5_sensing_invariants` at the initial kernel state and
an all-zero frame (the first-frame hypothesis holds there). -/
theorem C5_sensing_invariants_witness :
    initRTState.frame_count = 0 ∧
    ((rt_core_process_frame_ptr initRTState
        { yolo := snapHalfCrack, now := 0, target_hz := 5, latency_ms := 0 }
        (some fun _ => 0) TARGET_HEIGHT TARGET_WIDTH).1.on_spike_count +
      (rt_core_process_frame_ptr initRTState
        { yolo := snapHalfCrack, now := 0, target_hz := 5, latency_ms := 0 }
        (some fun _ => 0) TARGET_HEIGHT TARGET_WIDTH).1.off_spike_count ≤
      (TARGET_HEIGHT - 2) * (TARGET_WIDTH - 2)) ∧
    ((rt_core_process_frame_ptr initRTState
        { yolo := snapHalfCrack, now := 0, target_hz := 5, latency_ms := 0 }
        (some fun _ => 0) TARGET_HEIGHT TARGET_WIDTH).1.is_null_cycle = 1) :=
  ⟨rfl,
    (C5_sensing_invariants initRTState
      { yolo := snapHalfCrack, now := 0, target_hz := 5, latency_ms := 0 }
      (fun _ => 0)).1,
    ((C5_sensing_invariants initRTState
      { yolo := snapHalfCrack, now := 0, target_hz := 5, latency_ms := 0 }
      (fun _ => 0)).2.1 rfl).2.2.2⟩

/-- C10 confirmed: a null buffer pointer makes
`rt_core_process_frame_ptr` return a `ControlOutput` with
`frame_id = −1` and every other field zero, and leaves the kernel
state (luminance planes, frame counter) untouched, so any subsequent
call behaves exactly as if the null call had never happened. -/
theorem C10_null_frame (s : RTState) (env env2 : RTEnv) (h w h2 w2 : ℕ)
    (buf2 : Option (ℕ → ℕ)) :
    rt_core_process_frame_ptr s env none h w =
      ({ zeroControlOutput with frame_id := -1 }, s) ∧
    rt_core_process_frame_ptr (rt_core_process_frame_ptr s env none h w).2
        env2 buf2 h2 w2 =
      rt_core_process_frame_ptr s env2 buf2 h2 w2 := by
  exact ⟨rfl, rfl⟩

/-! ### Signature-bank scenario evaluation (registering one signature,
then querying with identical and with orthogonal descriptors) -/

theorem sb_l2_distance_same : sb_l2_distance [(1:ℝ), 0] [1, 0] = 0 := by
  simp only [sb_l2_distance, List.zip_cons_cons, List.zip_nil_right,
    List.map_cons, List.map_nil, List.sum_cons, List.sum_nil]
  norm_num

theorem sb_l2_distance_ortho : sb_l2_distance [(0:ℝ), 1] [1, 0] = Real.sqrt 2 := by
  simp only [sb_l2_distance, List.zip_cons_cons, List.zip_nil_right,
    List.map_cons, List.map_nil, List.sum_cons, List.sum_nil]
  norm_num

theorem sqrt_two_gt_threshold : ¬ (Real.sqrt 2 ≤ (3:ℝ)/10) := by
  intro h
  have h2 : Real.sqrt 2 ^ 2 = 2 := Real.sq_sqrt (by norm_num)
  have h0 : 0 ≤ Real.sqrt 2 := Real.sqrt_nonneg 2
  nlinarith

theorem sb_unit_norm_e1 : sb_safe_unit_norm [(1:ℝ), 0] = [1, 0] := by
  simp only [sb_safe_unit_norm, List.map_cons, List.map_nil,
    List.sum_cons, List.sum_nil]
  rw [show (1:ℝ) * 1 + ((0:ℝ) * 0 + 0) = 1 by norm_num, Real.sqrt_one]
  norm_num

/-- The signature present in the bank right after registering the four
unit descriptors `[1, 0]` with the default initial risk `0.1`. -/
noncomputable def sbSig0 : Signature :=
  { signature_id := 0
    gabor_fingerprint := [1, 0], semantic_profile := [1, 0]
    context_vector := [1, 0], motion_signature := [1, 0]
    first_seen := 0, last_seen := 0, occurrence_count := 1
    persistence_trace := 0, last_match_time := 0
    historical_risk := 1/10, false_alarm_rate := 0
    refractory_until := 0, avg_luminance := 0 }

/-- The bank after `register_signature` on an empty default bank. -/
noncomputable def sbBank1 : SignatureBank :=
  (register_signature (SignatureBank.emptyBank defaultBankConfig)
    [1, 0] [1, 0] [1, 0] [1, 0] (1/10) 0 0).2

theorem defaultBankConfig_match_threshold : defaultBankConfig.match_threshold = 3/10 := by
  simp only [defaultBankConfig, mkBankConfig]

theorem defaultBankConfig_trace_cap : defaultBankConfig.trace_cap = 10 := by
  simp only [defaultBankConfig, mkBankConfig]

theorem defaultBankConfig_trace_increment : defaultBankConfig.trace_increment = 1 := by
  simp only [defaultBankConfig, mkBankConfig]

theorem defaultBankConfig_adapt_rate : defaultBankConfig.adapt_rate = 5/100 := by
  simp only [defaultBankConfig, mkBankConfig, c_clamp]
  norm_num

theorem defaultBankConfig_adapt_min : defaultBankConfig.adapt_min_confidence = 6/10 := by
  simp only [defaultBankConfig, mkBankConfig]

theorem defaultBankConfig_refractory : defaultBankConfig.refractory_sec = 0 := by
  simp only [defaultBankConfig, mkBankConfig]
  norm_num

theorem defaultBankConfig_max_signatures : defaultBankConfig.max_signatures = 1000 := by
  simp only [defaultBankConfig, mkBankConfig]

theorem defaultBankConfig_weights :
    defaultBankConfig.w_gabor = 5/10 ∧ defaultBankConfig.w_semantic = 3/10 ∧
    defaultBankConfig.w_context = 1/10 ∧ defaultBankConfig.w_motion = 1/10 := by
  simp only [defaultBankConfig, mkBankConfig]
  norm_num

theorem sbBank1_eval :
    sbBank1 = { cfg := defaultBankConfig, signatures := [sbSig0], next_id := 1
                total_matches := 0, total_registrations := 1, total_prunes := 0 } := by
  simp only [sbBank1, register_signature, SignatureBank.emptyBank, sbSig0]
  rw [if_neg (by simp [defaultBankConfig, mkBankConfig])]
  simp only [sb_unit_norm_e1, c_clamp]
  norm_num

theorem ema_update_same (lr : ℝ) : ema_update [1, 0] [1, 0] lr = [1, 0] := by
  simp only [ema_update, List.enum, List.enumFrom, List.map_cons, List.map_nil,
    List.get?]
  rw [show (1 - lr) * 1 + lr * 1 = (1:ℝ) by ring,
    show (1 - lr) * 0 + lr * 0 = (0:ℝ) by ring]
  exact sb_unit_norm_e1

theorem find_best_candidate_ident :
    find_best_candidate defaultBankConfig 0 [1, 0] [1, 0] [1, 0] [1, 0]
      [(0, sbSig0)] = some (0, sbSig0, 0, 0) := by
  simp only [find_best_candidate, List.foldl_cons, List.foldl_nil]
  rw [if_neg (by simp [sbSig0])]
  simp only [sbSig0, sb_l2_distance_same]
  norm_num

/-- The updated signature after the identical-descriptor match: the
trace rose to `1`, the occurrence count to `2`. -/
noncomputable def sbSig1 : Signature :=
  { sbSig0 with occurrence_count := 2, persistence_trace := 1,
                last_match_time := 0 }

theorem find_match_full_ident :
    find_match_full sbBank1 [1, 0] [1, 0] [1, 0] [1, 0] 0 0 =
      ({ matched := true, signature_id := 0, distance := 0, confidence := 0
         match_time_ms := 0, d_struct := 0, avg_luminance := 0 },
       { cfg := defaultBankConfig, signatures := [sbSig1], next_id := 1
         total_matches := 1, total_registrations := 1, total_prunes := 0 }) := by
  rw [sbBank1_eval]
  simp only [find_match_full, List.enum, List.enumFrom]
  rw [if_neg (by simp : ¬ ([sbSig0] = ([] : List Signature)))]
  rw [find_best_candidate_ident]
  simp only [update_trace, decay_trace, MatchResult.init,
    defaultBankConfig_match_threshold, defaultBankConfig_adapt_min,
    defaultBankConfig_adapt_rate, defaultBankConfig_refractory,
    defaultBankConfig_trace_cap, defaultBankConfig_trace_increment]
  norm_num [sbSig0, sbSig1, ema_update_same, Real.exp_zero]

theorem compute_confidence_ident :
    compute_confidence
      { cfg := defaultBankConfig, signatures := [sbSig1], next_id := 1
        total_matches := 1, total_registrations := 1, total_prunes := 0 }
      { matched := true, signature_id := 0, distance := 0, confidence := 0
        match_time_ms := 0, d_struct := 0, avg_luminance := 0 } 0 0 = 9/100 := by
  simp only [compute_confidence, defaultBankConfig_match_threshold,
    defaultBankConfig_trace_cap]
  norm_num [List.find?, sbSig1, sbSig0, Real.exp_zero, c_clamp]

theorem find_best_candidate_ortho :
    find_best_candidate defaultBankConfig 0 [0, 1] [0, 1] [0, 1] [0, 1]
      [(0, sbSig0)] =
      some (0, sbSig0, Real.sqrt 2, (8/10) * Real.sqrt 2) := by
  obtain ⟨hwg, hws, hwc, hwm⟩ := defaultBankConfig_weights
  simp only [find_best_candidate, List.foldl_cons, List.foldl_nil]
  rw [if_neg (by simp [sbSig0] : ¬ (0:ℝ) < sbSig0.refractory_until)]
  simp only [sbSig0, sb_l2_distance_ortho, hwg, hws, hwc, hwm]
  have hd : (5/10) * Real.sqrt 2 + (3/10) * Real.sqrt 2 +
      ((1/10) * Real.sqrt 2 + (1/10) * Real.sqrt 2) = Real.sqrt 2 := by ring
  have hds : (5/10) * Real.sqrt 2 + (3/10) * Real.sqrt 2 =
      (8/10) * Real.sqrt 2 := by ring
  rw [hd, hds]

theorem find_match_full_ortho :
    find_match_full sbBank1 [0, 1] [0, 1] [0, 1] [0, 1] 0 0 =
      (MatchResult.init 0,
       { cfg := defaultBankConfig, signatures := [sbSig0], next_id := 1
         total_matches := 0, total_registrations := 1, total_prunes := 0 }) := by
  rw [sbBank1_eval]
  simp only [find_match_full, List.enum, List.enumFrom]
  rw [if_neg (by simp : ¬ ([sbSig0] = ([] : List Signature)))]
  rw [find_best_candidate_ortho]
  simp only [defaultBankConfig_match_threshold]
  rw [if_neg sqrt_two_gt_threshold]

theorem c_clamp_mem {α : Type} [LinearOrder α] (x lo hi : α) (h : lo ≤ hi) :
    lo ≤ c_clamp x lo hi ∧ c_clamp x lo hi ≤ hi := by
  unfold c_clamp
  split_ifs with h1 h2
  · exact ⟨le_refl lo, h⟩
  · exact ⟨h, le_refl hi⟩
  · exact ⟨not_lt.mp h1, not_lt.mp h2⟩

/-- The reported confidence is clamped into `[0, 1]` on every path. -/
theorem compute_confidence_bounds (bank : SignatureBank) (m : MatchResult)
    (gr ga : ℝ) :
    0 ≤ compute_confidence bank m gr ga ∧ compute_confidence bank m gr ga ≤ 1 := by
  simp only [compute_confidence]
  split_ifs with hm
  · norm_num
  all_goals
    cases hfind : List.find? (fun s => decide (s.signature_id = m.signature_id))
      bank.signatures with
    | none => simp [hfind]
    | some sig =>
      simp only [hfind]
      exact c_clamp_mem _ 0 1 (by norm_num)

/-- C8 counterexample: registering the unit descriptors `[1,0]` (each
channel) into an empty default bank and querying with the identical
descriptors does match, but the reported confidence is
`f·F·Q·(1−R) = 1 · (1/10) · 1 · (9/10) = 0.09`, far below the claim's
`(0.99, 1.0]` — a single match only raises the persistence trace to
`1` of `trace_cap = 10`, and the default initial risk `0.1` scales by
`(1 − R) = 0.9`. -/
theorem C8_identical_confidence_counterexample :
    (find_match_full sbBank1 [1, 0] [1, 0] [1, 0] [1, 0] 0 0).1.matched = true ∧
    compute_confidence (find_match_full sbBank1 [1, 0] [1, 0] [1, 0] [1, 0] 0 0).2
      (find_match_full sbBank1 [1, 0] [1, 0] [1, 0] [1, 0] 0 0).1 0 0 = 9/100 ∧
    ¬ (99/100 <
        compute_confidence (find_match_full sbBank1 [1, 0] [1, 0] [1, 0] [1, 0] 0 0).2
          (find_match_full sbBank1 [1, 0] [1, 0] [1, 0] [1, 0] 0 0).1 0 0) := by
  rw [find_match_full_ident]
  refine ⟨rfl, compute_confidence_ident, ?_⟩
  rw [compute_confidence_ident]
  norm_num

/-- C8 amended: after registering one signature in an empty default
bank, a query with identical descriptors returns `matched = true` with
confidence exactly `0.09` (not in `(0.99, 1.0]`); a query with
orthogonal descriptors returns `matched = false` with confidence `0`;
and the reported confidence always lies in `[0, 1]`. -/
theorem C8_confidence_amended :
    ((find_match_full sbBank1 [1, 0] [1, 0] [1, 0] [1, 0] 0 0).1.matched = true ∧
     compute_confidence (find_match_full sbBank1 [1, 0] [1, 0] [1, 0] [1, 0] 0 0).2
       (find_match_full sbBank1 [1, 0] [1, 0] [1, 0] [1, 0] 0 0).1 0 0 = 9/100) ∧
    ((find_match_full sbBank1 [0, 1] [0, 1] [0, 1] [0, 1] 0 0).1.matched = false ∧
     (find_match_full sbBank1 [0, 1] [0, 1] [0, 1] [0, 1] 0 0).1.confidence = 0 ∧
     compute_confidence (find_match_full sbBank1 [0, 1] [0, 1] [0, 1] [0, 1] 0 0).2
       (find_match_full sbBank1 [0, 1] [0, 1] [0, 1] [0, 1] 0 0).1 0 0 = 0) ∧
    (∀ (bank : SignatureBank) (m : MatchResult) (gr ga : ℝ),
      0 ≤ compute_confidence bank m gr ga ∧ compute_confidence bank m gr ga ≤ 1) := by
  refine ⟨?_, ?_, fun bank m gr ga => compute_confidence_bounds bank m gr ga⟩
  · rw [find_match_full_ident]
    exact ⟨rfl, compute_confidence_ident⟩
  · rw [find_match_full_ortho]
    refine ⟨rfl, rfl, ?_⟩
    simp [compute_confidence, MatchResult.init]

end AuraSense
